import Mathlib

/-!
# HotelHub: the Register and Login handlers

A shallow embedding of `controllers/userController.go`.  The two handlers are
straight-line pipelines over collaborators (JSON decoder, bcrypt, the database
client, the clock and the JWT signer).  Each handler is embedded as a pure
function from the collaborators, the storage state and the request body to an
`Outcome`: the HTTP response written, the storage state afterwards, the
collaborator calls made (in order) and the log lines emitted.
-/

namespace HotelHub

/-! ## Request bodies and JSON decoding -/

/-- A JSON value, as read from a request body or written to a response. -/
inductive JVal where
  | null
  | bool (b : Bool)
  | num (n : Int)
  | str (s : String)
  | arr (items : List JVal)
  | obj (members : List (String × JVal))

/-- The request payload, `Credentials` (userController.go lines 15-19). -/
structure Credentials where
  Username : String
  Email : String
  Password : String
deriving DecidableEq, Repr

/-- The three fields of `Credentials`. -/
inductive Field where
  | username
  | email
  | password
deriving DecidableEq, Repr

/-- Case folding of one character of an object key, as `encoding/json` folds
keys when it looks for a struct field: ASCII upper case goes to lower case, and
the two non-ASCII characters whose simple case folding is an ASCII letter (the
long s U+017F and the Kelvin sign U+212A) go to that letter. -/
def foldChar (c : Char) : Char :=
  if 'A'.toNat ≤ c.toNat ∧ c.toNat ≤ 'Z'.toNat then Char.ofNat (c.toNat + 32)
  else if c.toNat = 0x17F then 's'
  else if c.toNat = 0x212A then 'k'
  else c

/-- Fold a whole key. -/
def foldKey (k : String) : String :=
  String.mk (k.data.map foldChar)

/-- The field of `Credentials` an object key is stored into, from the `json`
tags of lines 16-18: an exact match or, failing that, a match up to case
folding.  The three tags are lower case and pairwise distinct, so both cases are
a comparison of the folded key.  Keys naming no field are skipped. -/
def fieldOf (k : String) : Option Field :=
  if foldKey k = "username" then some Field.username
  else if foldKey k = "email" then some Field.email
  else if foldKey k = "password" then some Field.password
  else none

/-- Store a string into one field. -/
def Credentials.set (c : Credentials) (f : Field) (s : String) : Credentials :=
  match f with
  | Field.username => { c with Username := s }
  | Field.email => { c with Email := s }
  | Field.password => { c with Password := s }

/-- Decode the members of a JSON object into `c`, left to right.  A member for a
field must be a string (stored, a later duplicate overwriting an earlier one) or
`null` (the field is left alone); any other value is a type error, which makes
`Decode` return an error.  The result is `none` when some member is a type
error. -/
def decodeMembers (c : Credentials) : List (String × JVal) → Option Credentials
  | [] => some c
  | (k, v) :: rest =>
    match fieldOf k with
    | none => decodeMembers c rest
    | some f =>
      match v with
      | JVal.str s => decodeMembers (c.set f s) rest
      | JVal.null => decodeMembers c rest
      | _ => none

/-- The zero value of `Credentials`, what `var creds Credentials` declares. -/
def Credentials.zero : Credentials := ⟨"", "", ""⟩

/-- The embedding of `json.NewDecoder(r.Body).Decode(&creds)` (lines 24, 59).
The body is given as the first JSON value of the stream, `none` when the body is
empty, unreadable or not syntactically JSON.  `some creds` stands for a nil
error, `none` for a non-nil one.  An object fills the fields its members name and
leaves the others at their zero value; `null` leaves the struct untouched; any
other value is a type error. -/
def decodeCredentials : Option JVal → Option Credentials
  | none => none
  | some JVal.null => some Credentials.zero
  | some (JVal.obj members) => decodeMembers Credentials.zero members
  | some _ => none

/-! ## Storage records, claims, time -/

/-- Modelled from the spec: the record type `db.UserModel` of the generated
database client is not among the sources.  The spec's data model gives a user an
identifier assigned by storage (opaque, here a string), an email, a username and
a password hash; the handlers read `ID` and `Password`. -/
structure UserModel where
  ID : String
  Email : String
  Username : String
  Password : String
deriving DecidableEq, Repr

/-- Modelled from the spec: the JSON shape of a serialised `db.UserModel`, whose
declaration (with its `json` tags) is not among the sources.  The spec says the
handler serialises the full record: identifier, email, username and password
hash. -/
def encodeUser (u : UserModel) : JVal :=
  JVal.obj [("id", JVal.str u.ID), ("email", JVal.str u.Email),
    ("username", JVal.str u.Username), ("password", JVal.str u.Password)]

/-- A point in time, in nanoseconds since the Unix epoch. -/
abbrev Time := Int

/-- A duration in nanoseconds, as `time.Duration`. -/
abbrev Duration := Int

/-- The constant `time.Hour`. -/
def Hour : Duration := 3600 * 1000000000

/-- The method `Time.Add`. -/
def Time.Add (t : Time) (d : Duration) : Time := t + d

/-- The method `Time.Unix`: whole seconds since the epoch, rounded down. -/
def Time.Unix (t : Time) : Int := t / 1000000000

/-- The session claim `models.Claims` as line 83-88 builds it: the user
identifier and the `ExpiresAt` of the embedded `jwt.StandardClaims`, in Unix
seconds. -/
structure Claims where
  UserId : String
  ExpiresAt : Int
deriving DecidableEq, Repr

/-- The fields of `http.Cookie` that line 98-102 sets. -/
structure Cookie where
  Name : String
  Value : String
  Expires : Time
deriving DecidableEq, Repr

/-! ## Responses -/

/-- What a handler wrote as the response body. -/
inductive Body where
  | text (s : String)
  | json (v : JVal)

/-- An HTTP response as the handler leaves it: status, the headers other than
`Set-Cookie`, the cookies set, and the body. -/
structure Response where
  status : Nat
  headers : List (String × String)
  cookies : List Cookie
  body : Body

/-- Look a key up among the members of a JSON object. -/
def lookupMember (k : String) : List (String × JVal) → Option JVal
  | [] => none
  | (k', v) :: rest => if k' = k then some v else lookupMember k rest

/-- The member `k` of a response body, when the body is a JSON object that has
one. -/
def Body.member (b : Body) (k : String) : Option JVal :=
  match b with
  | Body.json (JVal.obj members) => lookupMember k members
  | _ => none

def StatusOK : Nat := 200
def StatusCreated : Nat := 201
def StatusBadRequest : Nat := 400
def StatusUnauthorized : Nat := 401
def StatusInternalServerError : Nat := 500

/-- The embedding of `http.Error(w, msg, code)` on a fresh response writer: the
content type is plain text, sniffing is off, the status is `code` and the body is
the message followed by a newline. -/
def httpError (msg : String) (code : Nat) : Response :=
  { status := code
    headers := [("Content-Type", "text/plain; charset=utf-8"),
      ("X-Content-Type-Options", "nosniff")]
    cookies := []
    body := Body.text (msg ++ "\n") }

/-! ## Collaborators, calls and logs -/

/-- A collaborator call made by a handler, with its arguments. -/
inductive Call where
  | hash (password : String)
  | create (email username password : String)
  | find (email : String)
  | compare (hashed password : String)
  | now
  | sign (claims : Claims)
deriving DecidableEq, Repr

/-- Log levels used by the handlers. -/
inductive Level where
  | error
  | info
deriving DecidableEq, Repr

/-- The collaborators the handlers call, over a storage state `σ`.
`none` / `false` stand for a non-nil error.
* `GenerateFromPassword` is `bcrypt.GenerateFromPassword(_, bcrypt.DefaultCost)`;
* `CompareHashAndPassword hashed password` is `true` when bcrypt returns nil;
* `CreateOne db email username password` is `client.User.CreateOne(...).Exec`,
  returning the created record (if any) and the storage state afterwards;
* `FindUnique db email` is `client.User.FindUnique(Email.Equals(email)).Exec`;
* `Now` is the value `time.Now()` returns during the request;
* `SignedString claims` is HS256 signing of the claims with `models.JWTKey`. -/
structure Deps (σ : Type) where
  GenerateFromPassword : String → Option String
  CompareHashAndPassword : String → String → Bool
  CreateOne : σ → String → String → String → Option UserModel × σ
  FindUnique : σ → String → Option UserModel
  Now : Time
  SignedString : Claims → Option String

/-- What running a handler on one request produces. -/
structure Outcome (σ : Type) where
  resp : Response
  db : σ
  calls : List Call
  logs : List (Level × String)

/-! ## The handlers -/

/-- The handler `Register` (lines 21-54): decode, hash, insert, respond. -/
def Register {σ : Type} (client : Deps σ) (db : σ) (body : Option JVal) : Outcome σ :=
  match decodeCredentials body with
  | none =>
    { resp := httpError "Invalid input" StatusBadRequest
      db := db
      calls := []
      logs := [(Level.error, "Failed to decode request body")] }
  | some creds =>
    match client.GenerateFromPassword creds.Password with
    | none =>
      { resp := httpError "Error creating user" StatusInternalServerError
        db := db
        calls := [Call.hash creds.Password]
        logs := [(Level.error, "Failed to hash password")] }
    | some hashedPassword =>
      let created := client.CreateOne db creds.Email creds.Username hashedPassword
      match created.1 with
      | none =>
        { resp := httpError "Error creating user" StatusInternalServerError
          db := created.2
          calls := [Call.hash creds.Password,
            Call.create creds.Email creds.Username hashedPassword]
          logs := [(Level.error, "Failed to create user in database")] }
      | some user =>
        { resp :=
            { status := StatusCreated
              headers := [("Content-Type", "application/json")]
              cookies := []
              body := Body.json (encodeUser user) }
          db := created.2
          calls := [Call.hash creds.Password,
            Call.create creds.Email creds.Username hashedPassword]
          logs := [(Level.info, "User created successfully")] }

/-- The handler `Login` (lines 56-114): decode, look the user up by email,
compare the password with the stored hash, build and sign the claims, set the
cookie and respond. -/
def Login {σ : Type} (client : Deps σ) (db : σ) (body : Option JVal) : Outcome σ :=
  match decodeCredentials body with
  | none =>
    { resp := httpError "Invalid input" StatusBadRequest
      db := db
      calls := []
      logs := [(Level.error, "Failed to decode request body")] }
  | some creds =>
    match client.FindUnique db creds.Email with
    | none =>
      { resp := httpError "User not found" StatusUnauthorized
        db := db
        calls := [Call.find creds.Email]
        logs := [(Level.error, "User not found")] }
    | some user =>
      match client.CompareHashAndPassword user.Password creds.Password with
      | false =>
        { resp := httpError "Invalid credentials" StatusUnauthorized
          db := db
          calls := [Call.find creds.Email, Call.compare user.Password creds.Password]
          logs := [(Level.error, "Invalid password")] }
      | true =>
        let expirationTime := Time.Add client.Now (24 * Hour)
        let claims : Claims := { UserId := user.ID, ExpiresAt := Time.Unix expirationTime }
        match client.SignedString claims with
        | none =>
          { resp := httpError "Error logging in" StatusInternalServerError
            db := db
            calls := [Call.find creds.Email, Call.compare user.Password creds.Password,
              Call.now, Call.sign claims]
            logs := [(Level.error, "Failed to sign token")] }
        | some tokenString =>
          { resp :=
              { status := StatusOK
                headers := [("Content-Type", "application/json")]
                cookies := [{ Name := "token", Value := tokenString, Expires := expirationTime }]
                body := Body.json (JVal.obj
                  [("token", JVal.str tokenString), ("userId", JVal.str user.ID)]) }
            db := db
            calls := [Call.find creds.Email, Call.compare user.Password creds.Password,
              Call.now, Call.sign claims]
            logs := [(Level.info, "User logged in successfully")] }

/-! ## A storage collaborator -/

/-- Modelled from the spec: the generated database client (package `prisma/db`)
is not among the sources.  The spec gives its contract: a table of users with a
unique email, `createUser(email, username, hash) -> User | DuplicateError` and
`findUserByEmail(email) -> User | NotFoundError`, the identifier being assigned
by storage.  The state is the list of rows. -/
abbrev Store := List UserModel

/-- Modelled from the spec: `createUser(email, username, hash)`.  A row with the
same email is a duplicate error and leaves the table as it was; otherwise the
new row, with the identifier `newID` assigns, is appended and returned. -/
def createUser (newID : Store → String) (rows : Store) (email username hash : String) :
    Option UserModel × Store :=
  if rows.any (fun u => u.Email == email) then (none, rows)
  else
    let user : UserModel := { ID := newID rows, Email := email, Username := username,
                              Password := hash }
    (some user, rows ++ [user])

/-- Modelled from the spec: `findUserByEmail(email)`, the row with exactly this
email, if there is one. -/
def findUserByEmail (rows : Store) (email : String) : Option UserModel :=
  rows.find? (fun u => u.Email == email)

/-- The collaborators over the table `Store`; hashing, comparison, the clock and
signing stay parameters. -/
def storeClient (newID : Store → String) (hash : String → Option String)
    (compare : String → String → Bool) (now : Time) (sign : Claims → Option String) :
    Deps Store :=
  { GenerateFromPassword := hash
    CompareHashAndPassword := compare
    CreateOne := createUser newID
    FindUnique := findUserByEmail
    Now := now
    SignedString := sign }

/-! ## Concrete collaborators used in the examples -/

/-- A stand-in for hashing that always succeeds and differs from its input. -/
def sampleHash (p : String) : Option String := some ("$2a$10$" ++ p)

/-- The comparison matching `sampleHash`. -/
def sampleCompare (hashed p : String) : Bool := hashed == "$2a$10$" ++ p

/-- A stand-in for signing that always succeeds with a three-part token. -/
def sampleSign (c : Claims) : Option String := some ("hdr." ++ c.UserId ++ ".sig")

/-- Identifiers `u`, `ui`, `uii`, ... by the number of rows. -/
def sampleID (rows : Store) : String := String.mk ('u' :: List.replicate rows.length 'i')

/-- The sample collaborators over `Store`, at a fixed time. -/
def sampleClient : Deps Store :=
  storeClient sampleID sampleHash sampleCompare 1700000000123456789 sampleSign

/-- The body of the spec's scenario: alice registers. -/
def aliceBody : Option JVal :=
  some (JVal.obj [("username", JVal.str "alice"), ("email", JVal.str "a@x.com"),
    ("password", JVal.str "s3cret")])

/-- Alice logs in with the right password. -/
def aliceLogin : Option JVal :=
  some (JVal.obj [("email", JVal.str "a@x.com"), ("password", JVal.str "s3cret")])

/-- Alice logs in with a wrong password. -/
def aliceWrong : Option JVal :=
  some (JVal.obj [("email", JVal.str "a@x.com"), ("password", JVal.str "wrong")])

/-- The table after alice registered with the sample collaborators. -/
def aliceRows : Store :=
  [{ ID := "u", Email := "a@x.com", Username := "alice", Password := "$2a$10$s3cret" }]

/-- The empty JSON object. -/
def emptyObject : Option JVal := some (JVal.obj [])

/-- The members of a login body with no password (and no username). -/
def emailOnly : List (String × JVal) := [("email", JVal.str "a@x.com")]

/-- A table in which another user already holds alice's email. -/
def bobRows : Store :=
  [{ ID := "u", Email := "a@x.com", Username := "bob", Password := "$2a$10$hunter2" }]

/-- Whether a JSON value can be decoded into a string field: a string, or `null`
(which leaves the field alone). -/
def stringOrNull : JVal → Bool
  | JVal.str _ => true
  | JVal.null => true
  | _ => false

/-! ## Time arithmetic -/

/-- Adding 24 hours moves the Unix second count by exactly 86400, whatever the
sub-second part. -/
theorem unix_add_day (t : Time) : Time.Unix (Time.Add t (24 * Hour)) = Time.Unix t + 86400 := by
  unfold Time.Unix Time.Add Hour
  have h : (24 : Int) * (3600 * 1000000000) = 86400 * 1000000000 := by norm_num
  rw [h, Int.add_mul_ediv_right t 86400 (by norm_num)]

/-! ## Malformed bodies -/

/-- C4: a body that does not decode gets status 400 from both handlers, with no
collaborator call made (no hash, no insert, no lookup) and the storage state
unchanged. -/
theorem malformed_body_rejected {σ : Type} (client : Deps σ) (db : σ) (body : Option JVal)
    (hd : decodeCredentials body = none) :
    (Register client db body).resp.status = 400 ∧
    (Register client db body).calls = [] ∧
    (Register client db body).db = db ∧
    (Login client db body).resp.status = 400 ∧
    (Login client db body).calls = [] ∧
    (Login client db body).db = db := by
  simp [Register, Login, hd, httpError, StatusBadRequest]

/-- C4, at the body `[1]`, a JSON array. -/
theorem malformed_body_rejected_witness :
    decodeCredentials (some (JVal.arr [JVal.num 1])) = none ∧
    (Register sampleClient [] (some (JVal.arr [JVal.num 1]))).resp.status = 400 ∧
    (Register sampleClient [] (some (JVal.arr [JVal.num 1]))).calls = [] ∧
    (Register sampleClient [] (some (JVal.arr [JVal.num 1]))).db = [] ∧
    (Login sampleClient [] (some (JVal.arr [JVal.num 1]))).resp.status = 400 ∧
    (Login sampleClient [] (some (JVal.arr [JVal.num 1]))).calls = [] ∧
    (Login sampleClient [] (some (JVal.arr [JVal.num 1]))).db = [] :=
  ⟨by decide, malformed_body_rejected sampleClient [] _ (by decide)⟩

/-! ## Login failures -/

/-- C3: when the body decodes and the lookup by email fails, Login answers 401
with the plain-text message, sets no cookie, writes no token, and the lookup is
the only collaborator call: neither comparison nor signing is reached. -/
theorem login_unknown_email {σ : Type} (client : Deps σ) (db : σ) (body : Option JVal)
    (creds : Credentials)
    (hd : decodeCredentials body = some creds)
    (hf : client.FindUnique db creds.Email = none) :
    (Login client db body).resp.status = 401 ∧
    (Login client db body).resp.cookies = [] ∧
    (Login client db body).resp.body = Body.text "User not found\n" ∧
    (Login client db body).resp.body.member "token" = none ∧
    (Login client db body).calls = [Call.find creds.Email] := by
  simp [Login, hd, hf, httpError, StatusUnauthorized, Body.member]

/-- C2: when the lookup finds a user and the password fails comparison with the
stored hash, Login answers 401, sets no cookie, writes no token, and never
calls the signer. -/
theorem login_wrong_password {σ : Type} (client : Deps σ) (db : σ) (body : Option JVal)
    (creds : Credentials) (user : UserModel)
    (hd : decodeCredentials body = some creds)
    (hf : client.FindUnique db creds.Email = some user)
    (hc : client.CompareHashAndPassword user.Password creds.Password = false) :
    (Login client db body).resp.status = 401 ∧
    (Login client db body).resp.cookies = [] ∧
    (Login client db body).resp.body = Body.text "Invalid credentials\n" ∧
    (Login client db body).resp.body.member "token" = none ∧
    (Login client db body).calls =
      [Call.find creds.Email, Call.compare user.Password creds.Password] := by
  simp [Login, hd, hf, hc, httpError, StatusUnauthorized, Body.member]

/-- C3, at alice's login against an empty table. -/
theorem login_unknown_email_witness :
    decodeCredentials aliceLogin = some ⟨"", "a@x.com", "s3cret"⟩ ∧
    sampleClient.FindUnique [] "a@x.com" = none ∧
    (Login sampleClient [] aliceLogin).resp.status = 401 ∧
    (Login sampleClient [] aliceLogin).resp.cookies = [] ∧
    (Login sampleClient [] aliceLogin).resp.body = Body.text "User not found\n" ∧
    (Login sampleClient [] aliceLogin).resp.body.member "token" = none ∧
    (Login sampleClient [] aliceLogin).calls = [Call.find "a@x.com"] :=
  ⟨by decide, by decide,
    login_unknown_email sampleClient [] aliceLogin ⟨"", "a@x.com", "s3cret"⟩
      (by decide) (by decide)⟩

/-- C2, at alice's login with the password `wrong`. -/
theorem login_wrong_password_witness :
    decodeCredentials aliceWrong = some ⟨"", "a@x.com", "wrong"⟩ ∧
    sampleClient.FindUnique aliceRows "a@x.com" =
      some ⟨"u", "a@x.com", "alice", "$2a$10$s3cret"⟩ ∧
    sampleClient.CompareHashAndPassword "$2a$10$s3cret" "wrong" = false ∧
    (Login sampleClient aliceRows aliceWrong).resp.status = 401 ∧
    (Login sampleClient aliceRows aliceWrong).resp.cookies = [] ∧
    (Login sampleClient aliceRows aliceWrong).resp.body = Body.text "Invalid credentials\n" ∧
    (Login sampleClient aliceRows aliceWrong).resp.body.member "token" = none ∧
    (Login sampleClient aliceRows aliceWrong).calls =
      [Call.find "a@x.com", Call.compare "$2a$10$s3cret" "wrong"] :=
  ⟨by decide, by decide, by decide,
    login_wrong_password sampleClient aliceRows aliceWrong ⟨"", "a@x.com", "wrong"⟩
      ⟨"u", "a@x.com", "alice", "$2a$10$s3cret"⟩ (by decide) (by decide) (by decide)⟩

/-! ## Successful login -/

/-- C5: when lookup, comparison and signing all succeed at time `Now`, Login
answers 200; the body's `userId` is the stored user's ID and its `token` is the
signed string, which is also the value of the one cookie, named `token`; the
claims handed to the signer carry that user ID and an `ExpiresAt` equal to the
cookie's `Expires` in Unix seconds, which is `Unix(Now) + 86400`. -/
theorem login_success {σ : Type} (client : Deps σ) (db : σ) (body : Option JVal)
    (creds : Credentials) (user : UserModel) (tok : String)
    (hd : decodeCredentials body = some creds)
    (hf : client.FindUnique db creds.Email = some user)
    (hc : client.CompareHashAndPassword user.Password creds.Password = true)
    (hs : client.SignedString ⟨user.ID, Time.Unix client.Now + 86400⟩ = some tok) :
    (Login client db body).resp.status = 200 ∧
    (Login client db body).resp.body.member "userId" = some (JVal.str user.ID) ∧
    (Login client db body).resp.body.member "token" = some (JVal.str tok) ∧
    (Login client db body).resp.cookies =
      [{ Name := "token", Value := tok, Expires := Time.Add client.Now (24 * Hour) }] ∧
    (Login client db body).calls =
      [Call.find creds.Email, Call.compare user.Password creds.Password, Call.now,
        Call.sign ⟨user.ID, Time.Unix (Time.Add client.Now (24 * Hour))⟩] ∧
    Time.Unix (Time.Add client.Now (24 * Hour)) = Time.Unix client.Now + 86400 := by
  have hday := unix_add_day client.Now
  simp [Login, hd, hf, hc, hs, StatusOK, Body.member, lookupMember, hday]

/-- C5, at alice's login against the table holding her row. -/
theorem login_success_witness :
    decodeCredentials aliceLogin = some ⟨"", "a@x.com", "s3cret"⟩ ∧
    sampleClient.FindUnique aliceRows "a@x.com" =
      some ⟨"u", "a@x.com", "alice", "$2a$10$s3cret"⟩ ∧
    sampleClient.CompareHashAndPassword "$2a$10$s3cret" "s3cret" = true ∧
    sampleClient.SignedString ⟨"u", Time.Unix sampleClient.Now + 86400⟩ = some "hdr.u.sig" ∧
    (Login sampleClient aliceRows aliceLogin).resp.status = 200 ∧
    (Login sampleClient aliceRows aliceLogin).resp.body.member "userId" =
      some (JVal.str "u") ∧
    (Login sampleClient aliceRows aliceLogin).resp.body.member "token" =
      some (JVal.str "hdr.u.sig") ∧
    (Login sampleClient aliceRows aliceLogin).resp.cookies =
      [{ Name := "token", Value := "hdr.u.sig",
         Expires := Time.Add sampleClient.Now (24 * Hour) }] ∧
    (Login sampleClient aliceRows aliceLogin).calls =
      [Call.find "a@x.com", Call.compare "$2a$10$s3cret" "s3cret", Call.now,
        Call.sign ⟨"u", Time.Unix (Time.Add sampleClient.Now (24 * Hour))⟩] ∧
    Time.Unix (Time.Add sampleClient.Now (24 * Hour)) = Time.Unix sampleClient.Now + 86400 :=
  ⟨by decide, by decide, by decide, by decide,
    login_success sampleClient aliceRows aliceLogin ⟨"", "a@x.com", "s3cret"⟩
      ⟨"u", "a@x.com", "alice", "$2a$10$s3cret"⟩ "hdr.u.sig"
      (by decide) (by decide) (by decide) (by decide)⟩

/-! ## Register -/

/-- C6: when the body decodes and hashing and the insert succeed, Register makes
exactly one insert, with the request's email and username unchanged and the
output of the hash function (not the request's password) as password; it
answers 201 with the created record as JSON body, and the storage state is the
one the insert left. -/
theorem register_success {σ : Type} (client : Deps σ) (db : σ) (body : Option JVal)
    (creds : Credentials) (hashed : String) (user : UserModel)
    (hd : decodeCredentials body = some creds)
    (hh : client.GenerateFromPassword creds.Password = some hashed)
    (hc : (client.CreateOne db creds.Email creds.Username hashed).1 = some user) :
    (Register client db body).resp.status = 201 ∧
    (Register client db body).resp.body = Body.json (encodeUser user) ∧
    (Register client db body).resp.headers = [("Content-Type", "application/json")] ∧
    (Register client db body).calls =
      [Call.hash creds.Password, Call.create creds.Email creds.Username hashed] ∧
    (Register client db body).db =
      (client.CreateOne db creds.Email creds.Username hashed).2 := by
  simp [Register, hd, hh, hc, StatusCreated]

/-- C6, at alice's registration into an empty table. -/
theorem register_success_witness :
    decodeCredentials aliceBody = some ⟨"alice", "a@x.com", "s3cret"⟩ ∧
    sampleClient.GenerateFromPassword "s3cret" = some "$2a$10$s3cret" ∧
    (sampleClient.CreateOne [] "a@x.com" "alice" "$2a$10$s3cret").1 =
      some ⟨"u", "a@x.com", "alice", "$2a$10$s3cret"⟩ ∧
    (Register sampleClient [] aliceBody).resp.status = 201 ∧
    (Register sampleClient [] aliceBody).resp.body =
      Body.json (encodeUser ⟨"u", "a@x.com", "alice", "$2a$10$s3cret"⟩) ∧
    (Register sampleClient [] aliceBody).resp.headers =
      [("Content-Type", "application/json")] ∧
    (Register sampleClient [] aliceBody).calls =
      [Call.hash "s3cret", Call.create "a@x.com" "alice" "$2a$10$s3cret"] ∧
    (Register sampleClient [] aliceBody).db =
      (sampleClient.CreateOne [] "a@x.com" "alice" "$2a$10$s3cret").2 :=
  ⟨by decide, by decide, by decide,
    register_success sampleClient [] aliceBody ⟨"alice", "a@x.com", "s3cret"⟩
      "$2a$10$s3cret" ⟨"u", "a@x.com", "alice", "$2a$10$s3cret"⟩
      (by decide) (by decide) (by decide)⟩

/-- On the table `Store`, a lookup by the email of a row appended to a table
that had no row with this email returns the appended row. -/
theorem findUserByEmail_append (rows : Store) (user : UserModel)
    (hfresh : ∀ u ∈ rows, u.Email ≠ user.Email) :
    findUserByEmail (rows ++ [user]) user.Email = some user := by
  unfold findUserByEmail
  induction rows with
  | nil => simp
  | cons r rest ih =>
    have hr : (r.Email == user.Email) = false := by
      simpa using hfresh r (List.mem_cons_self r rest)
    have hrest : ∀ u ∈ rest, u.Email ≠ user.Email :=
      fun u hu => hfresh u (List.mem_cons_of_mem r hu)
    simp only [List.cons_append, List.find?_cons, hr]
    exact ih hrest

/-- On the table `Store`, an insert whose email no row has succeeds and appends
exactly the row made of the given email, username and password. -/
theorem createUser_fresh (newID : Store → String) (rows : Store)
    (email username hash : String) (hfresh : ∀ u ∈ rows, u.Email ≠ email) :
    createUser newID rows email username hash =
      (some ⟨newID rows, email, username, hash⟩,
        rows ++ [⟨newID rows, email, username, hash⟩]) := by
  have hany : rows.any (fun u => u.Email == email) = false := by
    rw [List.any_eq_false]
    intro u hu
    simpa using hfresh u hu
  simp [createUser, hany]

/-- On the table `Store`, an insert whose email some row already has fails and
leaves the table as it was. -/
theorem createUser_duplicate (newID : Store → String) (rows : Store)
    (email username hash : String) (u : UserModel) (hu : u ∈ rows) (he : u.Email = email) :
    createUser newID rows email username hash = (none, rows) := by
  have hany : rows.any (fun u => u.Email == email) = true := by
    rw [List.any_eq_true]
    exact ⟨u, hu, by simpa using he⟩
  simp [createUser, hany]

/-- C10: for a body that decodes, a failed hash gives 500 with the hash as the
only call (no insert attempted) and storage unchanged; a failed insert gives
500; the status is always 201, 400 or 500; and it is 201 exactly when decode,
hash and insert all succeed. -/
theorem register_status_cases {σ : Type} (client : Deps σ) (db : σ) (body : Option JVal) :
    (∀ creds, decodeCredentials body = some creds →
      client.GenerateFromPassword creds.Password = none →
        (Register client db body).resp.status = 500 ∧
        (Register client db body).calls = [Call.hash creds.Password] ∧
        (Register client db body).db = db) ∧
    (∀ creds hashed, decodeCredentials body = some creds →
      client.GenerateFromPassword creds.Password = some hashed →
      (client.CreateOne db creds.Email creds.Username hashed).1 = none →
        (Register client db body).resp.status = 500) ∧
    ((Register client db body).resp.status = 201 ∨
      (Register client db body).resp.status = 400 ∨
      (Register client db body).resp.status = 500) ∧
    ((Register client db body).resp.status = 201 ↔
      ∃ creds hashed user, decodeCredentials body = some creds ∧
        client.GenerateFromPassword creds.Password = some hashed ∧
        (client.CreateOne db creds.Email creds.Username hashed).1 = some user) := by
  cases hd : decodeCredentials body with
  | none => simp [Register, hd, httpError, StatusBadRequest]
  | some creds =>
    cases hh : client.GenerateFromPassword creds.Password with
    | none => simp [Register, hd, hh, httpError, StatusInternalServerError]
    | some hashed =>
      cases hc : (client.CreateOne db creds.Email creds.Username hashed).1 with
      | none => simp [Register, hd, hh, hc, httpError, StatusInternalServerError]
      | some user =>
        simp only [Register, hd, hh, hc, StatusCreated]
        refine ⟨?_, ?_, by simp, ?_⟩
        · intro c hc1 hn
          cases hc1
          rw [hh] at hn
          cases hn
        · intro c h hc1 hh1 hcn
          cases hc1
          rw [hh] at hh1
          cases hh1
          rw [hc] at hcn
          cases hcn
        · simp only [true_iff]
          exact ⟨creds, hashed, user, rfl, hh, hc⟩

/-! ## Register followed by Login -/

/-- C1 as stated fails: with collaborators whose hashing and signing always
succeed and whose comparison accepts `hash p` for `p`, a body that decodes,
registered into a table where the email is already taken, gets 500 from Register
and then 401 from Login. -/
theorem register_then_login_counterexample :
    decodeCredentials aliceBody = some ⟨"alice", "a@x.com", "s3cret"⟩ ∧
    sampleHash "s3cret" = some "$2a$10$s3cret" ∧
    sampleCompare "$2a$10$s3cret" "s3cret" = true ∧
    (Register sampleClient bobRows aliceBody).resp.status = 500 ∧
    (Login sampleClient (Register sampleClient bobRows aliceBody).db aliceBody).resp.status
      = 401 := by
  decide

/-- C1, amended: over the table `Store`, for a body that decodes to credentials
whose email no row has, when hashing the password succeeds, comparison accepts
the hash for the password, and signing succeeds with a non-empty token, Register
answers 201 and Login with the same body then answers 200 with a non-empty
token in the response body. -/
theorem register_then_login (newID : Store → String) (hash : String → Option String)
    (compare : String → String → Bool) (now : Time) (sign : Claims → Option String)
    (rows : Store) (body : Option JVal) (creds : Credentials) (hashed : String)
    (hd : decodeCredentials body = some creds)
    (hfresh : ∀ u ∈ rows, u.Email ≠ creds.Email)
    (hh : hash creds.Password = some hashed)
    (hv : compare hashed creds.Password = true)
    (hs : ∀ c, ∃ tok, sign c = some tok ∧ tok ≠ "") :
    (Register (storeClient newID hash compare now sign) rows body).resp.status = 201 ∧
    (Login (storeClient newID hash compare now sign)
      (Register (storeClient newID hash compare now sign) rows body).db body).resp.status
      = 200 ∧
    ∃ tok, tok ≠ "" ∧
      (Login (storeClient newID hash compare now sign)
        (Register (storeClient newID hash compare now sign) rows body).db
        body).resp.body.member "token" = some (JVal.str tok) := by
  have hcreate := createUser_fresh newID rows creds.Email creds.Username hashed hfresh
  have hfind := findUserByEmail_append rows
    ⟨newID rows, creds.Email, creds.Username, hashed⟩ hfresh
  obtain ⟨tok, hst, hne⟩ := hs ⟨newID rows, Time.Unix (Time.Add now (24 * Hour))⟩
  have hreg : (Register (storeClient newID hash compare now sign) rows body).db =
      rows ++ [⟨newID rows, creds.Email, creds.Username, hashed⟩] := by
    simp [Register, storeClient, hd, hh, hcreate]
  refine ⟨?_, ?_, tok, hne, ?_⟩
  · simp [Register, storeClient, hd, hh, hcreate, StatusCreated]
  · rw [hreg]
    simp [Login, storeClient, hd, hfind, hv, hst, StatusOK]
  · rw [hreg]
    simp [Login, storeClient, hd, hfind, hv, hst, Body.member, lookupMember]

/-- Every token of the sample signer is non-empty. -/
theorem sampleSign_nonempty (c : Claims) : ∃ tok, sampleSign c = some tok ∧ tok ≠ "" := by
  refine ⟨_, rfl, ?_⟩
  intro h
  have hlen := congrArg String.length h
  simp only [String.length_append] at hlen
  have h4 : "hdr.".length = 4 := by decide
  have h0 : "".length = 0 := by decide
  omega

/-- C1 amended, at alice's registration into an empty table. -/
theorem register_then_login_witness :
    decodeCredentials aliceBody = some ⟨"alice", "a@x.com", "s3cret"⟩ ∧
    (∀ u ∈ ([] : Store), u.Email ≠ "a@x.com") ∧
    sampleHash "s3cret" = some "$2a$10$s3cret" ∧
    sampleCompare "$2a$10$s3cret" "s3cret" = true ∧
    (∀ c, ∃ tok, sampleSign c = some tok ∧ tok ≠ "") ∧
    (Register (storeClient sampleID sampleHash sampleCompare 0 sampleSign) []
      aliceBody).resp.status = 201 ∧
    (Login (storeClient sampleID sampleHash sampleCompare 0 sampleSign)
      (Register (storeClient sampleID sampleHash sampleCompare 0 sampleSign) []
        aliceBody).db aliceBody).resp.status = 200 ∧
    ∃ tok, tok ≠ "" ∧
      (Login (storeClient sampleID sampleHash sampleCompare 0 sampleSign)
        (Register (storeClient sampleID sampleHash sampleCompare 0 sampleSign) []
          aliceBody).db aliceBody).resp.body.member "token" = some (JVal.str tok) :=
  ⟨by decide, by decide, by decide, by decide, sampleSign_nonempty,
    register_then_login sampleID sampleHash sampleCompare 0 sampleSign [] aliceBody
      ⟨"alice", "a@x.com", "s3cret"⟩ "$2a$10$s3cret"
      (by decide) (by decide) (by decide) (by decide) sampleSign_nonempty⟩

/-! ## What the Register response exposes -/

/-- C7 as stated fails: alice's successful registration answers 201 with a body
whose `password` member is the stored hash. -/
theorem register_exposes_hash_counterexample :
    (Register sampleClient [] aliceBody).resp.status = 201 ∧
    (Register sampleClient [] aliceBody).db = aliceRows ∧
    (Register sampleClient [] aliceBody).resp.body.member "password" =
      some (JVal.str "$2a$10$s3cret") ∧
    (Register sampleClient [] aliceBody).resp.body.member "password" ≠ none :=
  ⟨by decide, by decide, rfl, fun h => Option.noConfusion h⟩

/-- C7, amended: over the table `Store`, for every successful Register the
response body is the serialisation of the full created record, which is the row
stored, and its `password` member is the stored password hash. -/
theorem register_body_is_full_record (newID : Store → String)
    (hash : String → Option String) (compare : String → String → Bool) (now : Time)
    (sign : Claims → Option String) (rows : Store) (body : Option JVal)
    (creds : Credentials) (hashed : String)
    (hd : decodeCredentials body = some creds)
    (hfresh : ∀ u ∈ rows, u.Email ≠ creds.Email)
    (hh : hash creds.Password = some hashed) :
    (Register (storeClient newID hash compare now sign) rows body).resp.status = 201 ∧
    (Register (storeClient newID hash compare now sign) rows body).db =
      rows ++ [⟨newID rows, creds.Email, creds.Username, hashed⟩] ∧
    (Register (storeClient newID hash compare now sign) rows body).resp.body =
      Body.json (encodeUser ⟨newID rows, creds.Email, creds.Username, hashed⟩) ∧
    (Register (storeClient newID hash compare now sign) rows body).resp.body.member
      "password" = some (JVal.str hashed) := by
  have hcreate := createUser_fresh newID rows creds.Email creds.Username hashed hfresh
  simp [Register, storeClient, hd, hh, hcreate, StatusCreated, Body.member, encodeUser,
    lookupMember]

/-- C7 amended, at alice's registration into an empty table. -/
theorem register_body_is_full_record_witness :
    decodeCredentials aliceBody = some ⟨"alice", "a@x.com", "s3cret"⟩ ∧
    (∀ u ∈ ([] : Store), u.Email ≠ "a@x.com") ∧
    sampleHash "s3cret" = some "$2a$10$s3cret" ∧
    (Register (storeClient sampleID sampleHash sampleCompare 0 sampleSign) []
      aliceBody).resp.status = 201 ∧
    (Register (storeClient sampleID sampleHash sampleCompare 0 sampleSign) []
      aliceBody).db = [] ++ [⟨sampleID [], "a@x.com", "alice", "$2a$10$s3cret"⟩] ∧
    (Register (storeClient sampleID sampleHash sampleCompare 0 sampleSign) []
      aliceBody).resp.body =
      Body.json (encodeUser ⟨sampleID [], "a@x.com", "alice", "$2a$10$s3cret"⟩) ∧
    (Register (storeClient sampleID sampleHash sampleCompare 0 sampleSign) []
      aliceBody).resp.body.member "password" = some (JVal.str "$2a$10$s3cret") :=
  ⟨by decide, by decide, by decide,
    register_body_is_full_record sampleID sampleHash sampleCompare 0 sampleSign []
      aliceBody ⟨"alice", "a@x.com", "s3cret"⟩ "$2a$10$s3cret"
      (by decide) (by decide) (by decide)⟩

/-! ## Unknown email against wrong password -/

/-- C8 as stated fails: alice's login against an empty table and her login with
a wrong password against the table holding her row get different response
bodies. -/
theorem login_failures_differ_counterexample :
    sampleClient.FindUnique [] "a@x.com" = none ∧
    sampleClient.FindUnique aliceRows "a@x.com" =
      some ⟨"u", "a@x.com", "alice", "$2a$10$s3cret"⟩ ∧
    sampleClient.CompareHashAndPassword "$2a$10$s3cret" "wrong" = false ∧
    (Login sampleClient [] aliceLogin).resp.body = Body.text "User not found\n" ∧
    (Login sampleClient aliceRows aliceWrong).resp.body =
      Body.text "Invalid credentials\n" ∧
    (Login sampleClient [] aliceLogin).resp.body ≠
      (Login sampleClient aliceRows aliceWrong).resp.body :=
  ⟨by decide, by decide, by decide, rfl, rfl,
    fun h => absurd (Body.text.inj h) (by decide)⟩

/-- C8, amended: a Login whose email has no user and a Login whose email has a
user but whose password fails comparison get the same status (401), the same
headers and no cookie, but different bodies: `User not found` for the first and
`Invalid credentials` for the second. -/
theorem login_failures_compared {σ : Type} (client : Deps σ) (db₁ db₂ : σ)
    (body₁ body₂ : Option JVal) (creds₁ creds₂ : Credentials) (user : UserModel)
    (hd₁ : decodeCredentials body₁ = some creds₁)
    (hf₁ : client.FindUnique db₁ creds₁.Email = none)
    (hd₂ : decodeCredentials body₂ = some creds₂)
    (hf₂ : client.FindUnique db₂ creds₂.Email = some user)
    (hc₂ : client.CompareHashAndPassword user.Password creds₂.Password = false) :
    (Login client db₁ body₁).resp.status = 401 ∧
    (Login client db₂ body₂).resp.status = 401 ∧
    (Login client db₁ body₁).resp.headers = (Login client db₂ body₂).resp.headers ∧
    (Login client db₁ body₁).resp.cookies = [] ∧
    (Login client db₂ body₂).resp.cookies = [] ∧
    (Login client db₁ body₁).resp.body = Body.text "User not found\n" ∧
    (Login client db₂ body₂).resp.body = Body.text "Invalid credentials\n" ∧
    (Login client db₁ body₁).resp.body ≠ (Login client db₂ body₂).resp.body := by
  have h₁ : (Login client db₁ body₁).resp = httpError "User not found" 401 := by
    simp [Login, hd₁, hf₁, StatusUnauthorized]
  have h₂ : (Login client db₂ body₂).resp = httpError "Invalid credentials" 401 := by
    simp [Login, hd₂, hf₂, hc₂, StatusUnauthorized]
  rw [h₁, h₂]
  refine ⟨rfl, rfl, rfl, rfl, rfl, rfl, rfl, ?_⟩
  intro h
  exact absurd (Body.text.inj h) (by decide)

/-- C8 amended, at alice's two failed logins. -/
theorem login_failures_compared_witness :
    decodeCredentials aliceLogin = some ⟨"", "a@x.com", "s3cret"⟩ ∧
    sampleClient.FindUnique [] "a@x.com" = none ∧
    decodeCredentials aliceWrong = some ⟨"", "a@x.com", "wrong"⟩ ∧
    sampleClient.FindUnique aliceRows "a@x.com" =
      some ⟨"u", "a@x.com", "alice", "$2a$10$s3cret"⟩ ∧
    sampleClient.CompareHashAndPassword "$2a$10$s3cret" "wrong" = false ∧
    (Login sampleClient [] aliceLogin).resp.status = 401 ∧
    (Login sampleClient aliceRows aliceWrong).resp.status = 401 ∧
    (Login sampleClient [] aliceLogin).resp.headers =
      (Login sampleClient aliceRows aliceWrong).resp.headers ∧
    (Login sampleClient [] aliceLogin).resp.cookies = [] ∧
    (Login sampleClient aliceRows aliceWrong).resp.cookies = [] ∧
    (Login sampleClient [] aliceLogin).resp.body = Body.text "User not found\n" ∧
    (Login sampleClient aliceRows aliceWrong).resp.body =
      Body.text "Invalid credentials\n" ∧
    (Login sampleClient [] aliceLogin).resp.body ≠
      (Login sampleClient aliceRows aliceWrong).resp.body :=
  ⟨by decide, by decide, by decide, by decide, by decide,
    login_failures_compared sampleClient [] aliceRows aliceLogin aliceWrong
      ⟨"", "a@x.com", "s3cret"⟩ ⟨"", "a@x.com", "wrong"⟩
      ⟨"u", "a@x.com", "alice", "$2a$10$s3cret"⟩
      (by decide) (by decide) (by decide) (by decide) (by decide)⟩

/-! ## Bodies with missing fields -/

/-- Setting one field leaves the other two alone. -/
theorem Credentials.set_other (c : Credentials) (f : Field) (s : String) :
    (f ≠ Field.username → (c.set f s).Username = c.Username) ∧
    (f ≠ Field.email → (c.set f s).Email = c.Email) ∧
    (f ≠ Field.password → (c.set f s).Password = c.Password) := by
  cases f <;> simp [Credentials.set]

/-- Decoding the members of an object succeeds when every member that names a
field carries a string or `null`, and a field no member names keeps the value
it had. -/
theorem decodeMembers_total (members : List (String × JVal)) :
    ∀ c : Credentials,
    (∀ kv ∈ members, fieldOf kv.1 ≠ none → stringOrNull kv.2 = true) →
    ∃ c', decodeMembers c members = some c' ∧
      ((∀ kv ∈ members, fieldOf kv.1 ≠ some Field.username) → c'.Username = c.Username) ∧
      ((∀ kv ∈ members, fieldOf kv.1 ≠ some Field.email) → c'.Email = c.Email) ∧
      ((∀ kv ∈ members, fieldOf kv.1 ≠ some Field.password) → c'.Password = c.Password) := by
  induction members with
  | nil => intro c _; exact ⟨c, rfl, fun _ => rfl, fun _ => rfl, fun _ => rfl⟩
  | cons kv rest ih =>
    intro c hok
    obtain ⟨k, v⟩ := kv
    have hrest : ∀ kv ∈ rest, fieldOf kv.1 ≠ none → stringOrNull kv.2 = true :=
      fun kv hkv => hok kv (List.mem_cons_of_mem _ hkv)
    have tail : ∀ (P : String × JVal → Prop), (∀ kv ∈ (k, v) :: rest, P kv) →
        ∀ kv ∈ rest, P kv := fun P h kv hkv => h kv (List.mem_cons_of_mem _ hkv)
    cases hf : fieldOf k with
    | none =>
      obtain ⟨c', hc', hu, he, hp⟩ := ih c hrest
      refine ⟨c', by simp [decodeMembers, hf, hc'], ?_, ?_, ?_⟩
      · exact fun h => hu (tail _ h)
      · exact fun h => he (tail _ h)
      · exact fun h => hp (tail _ h)
    | some f =>
      have hv : stringOrNull v = true :=
        hok (k, v) (List.mem_cons_self _ _) (by simp [hf])
      have hset := Credentials.set_other c f
      cases v with
      | str s =>
        obtain ⟨c', hc', hu, he, hp⟩ := ih (c.set f s) hrest
        refine ⟨c', by simp [decodeMembers, hf, hc'], ?_, ?_, ?_⟩
        · intro h
          have hne : f ≠ Field.username := by
            have := h (k, JVal.str s) (List.mem_cons_self _ _)
            simpa [hf] using this
          rw [hu (tail _ h), (hset s).1 hne]
        · intro h
          have hne : f ≠ Field.email := by
            have := h (k, JVal.str s) (List.mem_cons_self _ _)
            simpa [hf] using this
          rw [he (tail _ h), (hset s).2.1 hne]
        · intro h
          have hne : f ≠ Field.password := by
            have := h (k, JVal.str s) (List.mem_cons_self _ _)
            simpa [hf] using this
          rw [hp (tail _ h), (hset s).2.2 hne]
      | null =>
        obtain ⟨c', hc', hu, he, hp⟩ := ih c hrest
        refine ⟨c', by simp [decodeMembers, hf, hc'], ?_, ?_, ?_⟩
        · exact fun h => hu (tail _ h)
        · exact fun h => he (tail _ h)
        · exact fun h => hp (tail _ h)
      | bool b => simp [stringOrNull] at hv
      | num n => simp [stringOrNull] at hv
      | arr items => simp [stringOrNull] at hv
      | obj ms => simp [stringOrNull] at hv

/-- Once the body decodes, Register answers 201 or 500. -/
theorem register_after_decode {σ : Type} (client : Deps σ) (db : σ) (body : Option JVal)
    (creds : Credentials) (hd : decodeCredentials body = some creds) :
    (Register client db body).resp.status = 201 ∨
    (Register client db body).resp.status = 500 := by
  cases hh : client.GenerateFromPassword creds.Password with
  | none => simp [Register, hd, hh, httpError, StatusInternalServerError]
  | some hashed =>
    cases hc : (client.CreateOne db creds.Email creds.Username hashed).1 with
    | none => simp [Register, hd, hh, hc, httpError, StatusInternalServerError]
    | some user => simp [Register, hd, hh, hc, StatusCreated]

/-- Once the body decodes, Login answers 200, 401 or 500. -/
theorem login_after_decode {σ : Type} (client : Deps σ) (db : σ) (body : Option JVal)
    (creds : Credentials) (hd : decodeCredentials body = some creds) :
    (Login client db body).resp.status = 200 ∨
    (Login client db body).resp.status = 401 ∨
    (Login client db body).resp.status = 500 := by
  cases hf : client.FindUnique db creds.Email with
  | none => simp [Login, hd, hf, httpError, StatusUnauthorized]
  | some user =>
    cases hc : client.CompareHashAndPassword user.Password creds.Password with
    | false => simp [Login, hd, hf, hc, httpError, StatusUnauthorized]
    | true =>
      cases hs : client.SignedString
          ⟨user.ID, Time.Unix (Time.Add client.Now (24 * Hour))⟩ with
      | none => simp [Login, hd, hf, hc, hs, httpError, StatusInternalServerError]
      | some tok => simp [Login, hd, hf, hc, hs, StatusOK]

/-- C9 as stated fails: the empty object `{}` decodes to empty credentials, and
Register answers 201 and Login 401 for it; a Register body with no username
gets 201, and a Login body with no password gets 401. -/
theorem missing_fields_counterexample :
    decodeCredentials emptyObject = some ⟨"", "", ""⟩ ∧
    (Register sampleClient [] emptyObject).resp.status = 201 ∧
    (Login sampleClient [] emptyObject).resp.status = 401 ∧
    decodeCredentials aliceLogin = some ⟨"", "a@x.com", "s3cret"⟩ ∧
    (Register sampleClient [] aliceLogin).resp.status = 201 ∧
    decodeCredentials (some (JVal.obj emailOnly)) = some ⟨"", "a@x.com", ""⟩ ∧
    (Login sampleClient aliceRows (some (JVal.obj emailOnly))).resp.status = 401 := by
  decide

/-- C9, amended: a body that is a JSON object in which every member naming a
field of `Credentials` carries a string or `null` decodes without error, each
field that no member names being left empty; neither handler treats it as an
input error: Register answers 201 or 500 and Login 200, 401 or 500, never
400. -/
theorem missing_fields_accepted {σ : Type} (client : Deps σ) (db : σ)
    (members : List (String × JVal))
    (hok : ∀ kv ∈ members, fieldOf kv.1 ≠ none → stringOrNull kv.2 = true) :
    ∃ creds, decodeCredentials (some (JVal.obj members)) = some creds ∧
      ((∀ kv ∈ members, fieldOf kv.1 ≠ some Field.username) → creds.Username = "") ∧
      ((∀ kv ∈ members, fieldOf kv.1 ≠ some Field.email) → creds.Email = "") ∧
      ((∀ kv ∈ members, fieldOf kv.1 ≠ some Field.password) → creds.Password = "") ∧
      ((Register client db (some (JVal.obj members))).resp.status = 201 ∨
        (Register client db (some (JVal.obj members))).resp.status = 500) ∧
      ((Login client db (some (JVal.obj members))).resp.status = 200 ∨
        (Login client db (some (JVal.obj members))).resp.status = 401 ∨
        (Login client db (some (JVal.obj members))).resp.status = 500) ∧
      (Register client db (some (JVal.obj members))).resp.status ≠ 400 ∧
      (Login client db (some (JVal.obj members))).resp.status ≠ 400 := by
  obtain ⟨creds, hd, hu, he, hp⟩ := decodeMembers_total members Credentials.zero hok
  have hd' : decodeCredentials (some (JVal.obj members)) = some creds := hd
  have hr := register_after_decode client db _ creds hd'
  have hl := login_after_decode client db _ creds hd'
  refine ⟨creds, hd', hu, he, hp, hr, hl, ?_, ?_⟩
  · rcases hr with h | h <;> rw [h] <;> decide
  · rcases hl with h | h | h <;> rw [h] <;> decide

/-- C9 amended, at the body with only an email. -/
theorem missing_fields_accepted_witness :
    (∀ kv ∈ emailOnly, fieldOf kv.1 ≠ none → stringOrNull kv.2 = true) ∧
    ∃ creds, decodeCredentials (some (JVal.obj emailOnly)) = some creds ∧
      ((∀ kv ∈ emailOnly, fieldOf kv.1 ≠ some Field.username) → creds.Username = "") ∧
      ((∀ kv ∈ emailOnly, fieldOf kv.1 ≠ some Field.email) → creds.Email = "") ∧
      ((∀ kv ∈ emailOnly, fieldOf kv.1 ≠ some Field.password) → creds.Password = "") ∧
      ((Register sampleClient aliceRows (some (JVal.obj emailOnly))).resp.status = 201 ∨
        (Register sampleClient aliceRows (some (JVal.obj emailOnly))).resp.status = 500) ∧
      ((Login sampleClient aliceRows (some (JVal.obj emailOnly))).resp.status = 200 ∨
        (Login sampleClient aliceRows (some (JVal.obj emailOnly))).resp.status = 401 ∨
        (Login sampleClient aliceRows (some (JVal.obj emailOnly))).resp.status = 500) ∧
      (Register sampleClient aliceRows (some (JVal.obj emailOnly))).resp.status ≠ 400 ∧
      (Login sampleClient aliceRows (some (JVal.obj emailOnly))).resp.status ≠ 400 :=
  ⟨by decide, missing_fields_accepted sampleClient aliceRows emailOnly (by decide)⟩

end HotelHub
